import Mathlib

/-!
Shallow embedding of the RAG pipeline of the Voldziu/AIUpskill repository.

The embedded code lives in:
* `src/src/RAG/LangChain/PDFprocessor.py`  (class `DocumentProcessor`)
* `src/src/RAG/LangChain/ChromaRAGClient.py` (class `ChromaRAGClient`)
* `src/src/RAG/LangChain/RAGClient.py` (class `RAGClient`)
* `src/RAG/RagClient.py` (class `AzureRAGClient`)

External collaborators (filesystem, PDF loader, text splitter, embedding
service, vector store, chat model, the LangChain QA chains) are passed in as
function parameters; the repository's own control flow and data shaping are
translated statement by statement.
-/

namespace AIUpskill

/-! ## Data model -/

/-- One entry of the `sources` list of a RAG result.  `page` is `some n` when
the underlying document metadata carries an integer `page` key and `none` for
the `"N/A"` sentinel / absent key. -/
structure SourceEntry where
  title : String
  source : String
  score : Int
  page : Option Int
  deriving Repr, DecidableEq

/-- The result dictionary returned by `ask` / `ask_rag`.  `num_sources` is an
`Option` because one code path (the empty-retrieval branch of
`AzureRAGClient.ask` in `src/RAG/RagClient.py`) builds the dictionary without
a `num_sources` key; `none` models that absent key. -/
structure RAGResult where
  query : String
  answer : String
  sources : List SourceEntry
  context_used : Bool
  num_sources : Option Nat
  deriving Repr, DecidableEq

/-- The dictionary returned by `DocumentProcessor.index_pdf_files`. -/
structure IndexingResult where
  success : Bool
  message : String
  files_processed : Nat
  chunks_created : Nat
  chunks_indexed : Nat
  deriving Repr, DecidableEq

/-! ## DocumentProcessor (src/src/RAG/LangChain/PDFprocessor.py) -/

/-- A LangChain `Document` chunk as produced by `process_single_pdf`: its
assigned `id` and its `page_content`. -/
structure Chunk where
  id : String
  page_content : String
  deriving Repr, DecidableEq

/-- An input path handed to the PDF pipeline, together with what the external
filesystem and loader report for it: `file_exists` models `Path.exists()`,
`is_pdf_suffix` models `path.suffix.lower() == ".pdf"`, `size_bytes` models
`path.stat().st_size`, and `parsed_chunks` is the ordered list of chunk texts
the external `PyPDFLoader` + `RecursiveCharacterTextSplitter` produce for this
file in `process_single_pdf`. -/
structure PdfPath where
  path : String
  file_exists : Bool
  is_pdf_suffix : Bool
  size_bytes : Nat
  parsed_chunks : List String
  deriving Repr, DecidableEq

/-- `DocumentProcessor.validate_pdf_files` (lines 49-76): keeps exactly the
paths that exist, end in `.pdf`, and have nonzero size; invalid entries are
skipped with a log line (`continue`), never an error. -/
def validate_pdf_files (pdf_paths : List PdfPath) : List PdfPath :=
  pdf_paths.filter (fun p => p.file_exists && p.is_pdf_suffix && (p.size_bytes != 0))

/-- The chunk id assigned in `process_single_pdf` (line 94):
`f"doc_{i}_{hash(chunk.page_content[:100])}"`.  Python's builtin string `hash`
is salted per interpreter process, so it is passed in as `pyHash`; any one run
of the program corresponds to one concrete `pyHash`. -/
def chunk_id (pyHash : String → Int) (i : Nat) (page_content : String) : String :=
  "doc_" ++ toString i ++ "_" ++ toString (pyHash (page_content.take 100))

/-- `DocumentProcessor.process_single_pdf` (lines 78-106): loads and splits the
file (external, recorded in `parsed_chunks`) and assigns each chunk its id by
enumeration index. -/
def process_single_pdf (pyHash : String → Int) (p : PdfPath) : List Chunk :=
  p.parsed_chunks.enum.map (fun ic => { id := chunk_id pyHash ic.1 ic.2, page_content := ic.2 })

/-- `DocumentProcessor.process_pdf_batch` (lines 124-140): concatenates the
chunks of every file (the `if chunks:` guard only affects the logged
`successful` counter; extending by an empty list is the identity). -/
def process_pdf_batch (pyHash : String → Int) (pdf_paths : List PdfPath) : List Chunk :=
  (pdf_paths.map (process_single_pdf pyHash)).flatten

/-- `DocumentProcessor.add_documents` (lines 142-157): returns `False` on an
empty batch, otherwise hands the documents to the RAG client (external,
modeled by `addDocs`, which returns the list of ids) and reports whether any
ids came back. -/
def processor_add_documents (addDocs : List Chunk → List String) (documents : List Chunk) : Bool :=
  if documents.isEmpty then false
  else !(addDocs documents).isEmpty

/-- `DocumentProcessor.index_pdf_files` (lines 161-199): validate, process,
add to the database, and report the `IndexingResult` dictionary. -/
def index_pdf_files (pyHash : String → Int) (addDocs : List Chunk → List String)
    (pdf_paths : List PdfPath) : IndexingResult :=
  let valid_files := validate_pdf_files pdf_paths
  if valid_files.isEmpty then
    { success := false, message := "No valid PDF files found",
      files_processed := 0, chunks_created := 0, chunks_indexed := 0 }
  else
    let documents := process_pdf_batch pyHash valid_files
    if documents.isEmpty then
      { success := false, message := "No documents could be processed",
        files_processed := 0, chunks_created := 0, chunks_indexed := 0 }
    else
      let success := processor_add_documents addDocs documents
      { success := success,
        message := if success then "PDF indexing completed successfully"
                   else "Failed to index documents",
        files_processed := valid_files.length,
        chunks_created := documents.length,
        chunks_indexed := if success then documents.length else 0 }

/-- The `ValueError` that the external langchain `TextSplitter.__init__`
raises when the overlap exceeds the chunk size ("Got a larger chunk overlap
(...) than chunk size (...), should be smaller.").  The repository itself
defines no error class — in particular no `ConfigurationError`. -/
inductive SplitterValueError where
  | largerOverlapThanChunkSize : SplitterValueError
  deriving Repr, DecidableEq

/-- The chunking configuration stored by `DocumentProcessor.__init__`. -/
structure DocumentProcessorConfig where
  chunk_size : Int
  chunk_overlap : Int
  deriving Repr, DecidableEq

/-- `DocumentProcessor.__init__` (lines 16-30): stores the client and
constructs `RecursiveCharacterTextSplitter(chunk_size=..., chunk_overlap=...,
...)`.  The repository's own code performs no check and contains no raise
statement, but the splitter's base `TextSplitter.__init__` raises a
`ValueError` whenever `chunk_overlap > chunk_size`; every other pair —
non-positive values and overlap equal to the chunk size included — is
accepted and stored unchanged. -/
def documentProcessor_init (chunk_size chunk_overlap : Int) :
    Except SplitterValueError DocumentProcessorConfig :=
  if chunk_overlap > chunk_size then
    Except.error SplitterValueError.largerOverlapThanChunkSize
  else
    Except.ok { chunk_size := chunk_size, chunk_overlap := chunk_overlap }

/-! ## AzureRAGClient (src/RAG/RagClient.py) -/

/-- A raw document as produced by the Azure AI Search client iteration in
`search_documents`; each field models a `doc.get(key)` lookup, `none` meaning
the key is absent.  `score` models the `@search.score` key. -/
structure AzureRawDoc where
  id : Option String := none
  content : Option String := none
  title : Option String := none
  url : Option String := none
  filepath : Option String := none
  meta_json_string : Option String := none
  score : Option Int := none
  deriving Repr, DecidableEq

/-- The document dictionary `search_documents` builds from a raw search hit
(lines 147-160); every key is present from here on. -/
structure AzureDoc where
  id : String
  content : String
  title : String
  url : String
  filepath : String
  meta_json_string : String
  score : Int
  source : String
  deriving Repr, DecidableEq

/-- The per-hit dictionary construction in `search_documents`.  The `source`
key is `doc.get("url") or doc.get("filepath", "Unknown")`: the `or` takes the
url when it is truthy (present and nonempty), else the filepath lookup with
its `"Unknown"` default. -/
def toAzureDoc (d : AzureRawDoc) : AzureDoc :=
  { id := d.id.getD "", content := d.content.getD "", title := d.title.getD "",
    url := d.url.getD "", filepath := d.filepath.getD "",
    meta_json_string := d.meta_json_string.getD "",
    score := d.score.getD 0,
    source := if (d.url.getD "") != "" then d.url.getD "" else d.filepath.getD "Unknown" }

/-- `AzureRAGClient.generate_embeddings` (lines 90-109).  The embedding
service response is modeled by `svc`, giving the embedding of the first
response datum when there is one (`response.data and response.data[0].embedding`
truthiness: an empty embedding list is falsy).  The function returns that
embedding, or `[]` when the response is empty/invalid. -/
def generate_embeddings (svc : String → Option (List Int)) (text : String) : List Int :=
  match svc text with
  | some embedding => if embedding.isEmpty then [] else embedding
  | none => []

/-- `AzureRAGClient.search_documents` (lines 112-166): embed the query; on an
empty embedding log an error and return `[]`; otherwise run the store's hybrid
search (external, modeled by `store`, taking the query vector, the query text
and `top_k`) and shape each hit. -/
def search_documents (svc : String → Option (List Int))
    (store : List Int → String → Nat → List AzureRawDoc)
    (top_k : Nat) (query : String) : List AzureDoc :=
  let query_embedding := generate_embeddings svc query
  if query_embedding.isEmpty then []
  else (store query_embedding query top_k).map toAzureDoc

/-- The `source_info` line of `create_rag_prompt` (lines 176-178): the
`source` key is always present, and the title is appended when truthy
(nonempty). -/
def azure_source_info (doc : AzureDoc) : String :=
  let base := "Source: " ++ doc.source
  if doc.title != "" then base ++ " - " ++ doc.title else base

/-- One element of `context_parts` (line 180), for the 1-based index `i`. -/
def azure_context_part (i : Nat) (doc : AzureDoc) : String :=
  "Document " ++ toString i ++ ":\n" ++ azure_source_info doc ++ "\n" ++ doc.content ++ "\n"

/-- `context = "\n".join(context_parts)` over the 1-based enumeration. -/
def azure_build_context (context_docs : List AzureDoc) : String :=
  String.intercalate "\n" (context_docs.enum.map (fun ic => azure_context_part (ic.1 + 1) ic.2))

/-- The literal bytes of the `system_prompt` template (lines 184-201) before
the `{context}` placeholder. -/
def azure_prompt_part1 : String :=
  "\n        You are a helpful AI assistant that answers questions based on the provided context documents. \n\n        Instructions:\n        - Use only the information provided in the context documents to answer the question\n        - If the context doesn\x27t contain enough information to answer the question, say so clearly - don\x27t make assumptions\n        - Cite your sources by referencing the document numbers when possible\n        - Be concise but comprehensive in your responses\n        - If there are conflicting information in the documents, acknowledge this\n        \n        Context Documents:\n        "

/-- The template bytes between the `{context}` and `{query}` placeholders. -/
def azure_prompt_part2 : String := "\n        \n        Question: "

/-- The template bytes after the `{query}` placeholder. -/
def azure_prompt_part3 : String := "\n        \n        Answer:\n        \n        "

/-- `AzureRAGClient.create_rag_prompt` (lines 170-205):
`system_prompt.format(context=context, query=query)`. -/
def create_rag_prompt (query : String) (context_docs : List AzureDoc) : String :=
  let context := azure_build_context context_docs
  azure_prompt_part1 ++ context ++ azure_prompt_part2 ++ query ++ azure_prompt_part3

/-- The `AttributeError` raised inside `generate_response`'s failure branch:
its error-logging f-string reads `response.status_code` and `response.error`,
neither of which exists on the SDK `ChatCompletion` object. -/
inductive PyAttributeError where
  | statusCodeOnChatCompletion : PyAttributeError
  deriving Repr, DecidableEq

/-- `AzureRAGClient.generate_response` (lines 207-230).  The chat service
response is modeled by `gen`, giving the content of the first choice when
`response.choices` is nonempty.  With a choice the stripped content is
returned.  With no choices the else branch first evaluates the log message
f-string accessing `response.status_code` and `response.error` — attributes
the SDK `ChatCompletion` lacks — so an `AttributeError` is raised before the
`return ""` line is reached (the docstring's empty-string result is
unreachable on this path). -/
def generate_response (gen : String → Option String) (prompt : String) :
    Except PyAttributeError String :=
  match gen prompt with
  | some content => Except.ok content.trim
  | none => Except.error PyAttributeError.statusCodeOnChatCompletion

/-- An `ask` / `ask_rag` call outcome: the returned result record, plus
whether the generation service (chat model / QA chain) was invoked during the
call. -/
structure AskOutcome where
  result : RAGResult
  generation_called : Bool
  deriving Repr, DecidableEq

/-- The fixed empty-retrieval answer of `AzureRAGClient.ask` (line 246). -/
def azure_no_info_answer : String :=
  "I couldn\x27t find any relevant information to answer your question."

/-- The fallback dictionary `AzureRAGClient.ask` builds when retrieval yields
no documents (lines 243-249): note it carries no `num_sources` key. -/
def azure_no_info_result (query : String) : RAGResult :=
  { query := query, answer := azure_no_info_answer,
    sources := [], context_used := false, num_sources := none }

/-- `AzureRAGClient.ask` (lines 234-288): retrieve; on no documents return the
fixed fallback dictionary without generating; otherwise build the prompt and
call the generation service — `ask` catches nothing, so an `AttributeError`
raised inside `generate_response` propagates to the caller — and on a normal
return produce the result with `context_used: True` and
`num_sources: len(documents)`.  The per-document source entries read keys
that `search_documents` always set, so the `"Untitled"` / `"Unknown"` / `0`
defaults of `.get` never fire; these entries carry no `page` key. -/
def azure_ask (svc : String → Option (List Int))
    (store : List Int → String → Nat → List AzureRawDoc)
    (gen : String → Option String)
    (top_k : Nat) (query : String) : Except PyAttributeError AskOutcome :=
  let documents := search_documents svc store top_k query
  if documents.isEmpty then
    Except.ok { result := azure_no_info_result query, generation_called := false }
  else
    let rag_prompt := create_rag_prompt query documents
    match generate_response gen rag_prompt with
    | Except.error e => Except.error e
    | Except.ok answer =>
      Except.ok
        { result := { query := query, answer := answer,
                      sources := documents.map (fun d =>
                        { title := d.title, source := d.source, score := d.score, page := none }),
                      context_used := true, num_sources := some documents.length },
          generation_called := true }

/-! ## ChromaRAGClient and RAGClient (src/src/RAG/LangChain) -/

/-- A LangChain `Document` returned by the QA chain as a source document,
restricted to the metadata keys `ask_rag` reads; `none` = key absent.  `page`
is the integer page metadata set by the PDF loader when present. -/
structure ChromaDoc where
  source : Option String := none
  source_file : Option String := none
  score : Option Int := none
  page : Option Int := none
  deriving Repr, DecidableEq

/-- The source-entry construction shared by `ChromaRAGClient.ask_rag`
(lines 285-293) and `RAGClient.ask_rag` (lines 307-315):
`doc.metadata.get` with the written defaults; the `page` entry is the metadata
value or the `"N/A"` sentinel (modeled `none`). -/
def chroma_source_entry (d : ChromaDoc) : SourceEntry :=
  { title := d.source.getD "Unknown",
    source := d.source_file.getD (d.source.getD "Unknown"),
    score := d.score.getD 0,
    page := d.page }

/-- The fixed zero-documents answer of `ChromaRAGClient.ask_rag` (line 250). -/
def chroma_no_docs_answer : String :=
  "No documents found in the database. Please add documents first using process_pdf_files()."

/-- `ChromaRAGClient.ask_rag` (lines 240-308).  `doc_count` is what
`self.vectorstore._collection.count()` reports; `chain` models invoking the
LangChain QA chain (memory-backed or stateless — both build a chain around
the LLM and run it), returning the answer text and the source documents.
Running the chain is the generation-service invocation. -/
def chroma_ask_rag (doc_count : Nat)
    (chain : String → String × List ChromaDoc) (query : String) : AskOutcome :=
  if doc_count = 0 then
    { result := { query := query, answer := chroma_no_docs_answer,
                  sources := [], context_used := false, num_sources := some 0 },
      generation_called := false }
  else
    let out := chain query
    let sources := out.2.map chroma_source_entry
    { result := { query := query, answer := out.1, sources := sources,
                  context_used := decide (sources.length > 0),
                  num_sources := some sources.length },
      generation_called := true }

/-- The fixed zero-documents answer of `RAGClient.ask_rag` (line 276). -/
def ragclient_no_docs_answer : String :=
  "No documents found in the database. Please add documents first."

/-- `RAGClient.ask_rag` (lines 263-331).  With `isLocal` true, `doc_count` is
the Chroma collection count; with `isLocal` false the count is hardcoded to
`1` (lines 268-271), so the zero-documents short-circuit can never fire and
the QA chain — and with it the generation service — always runs. -/
def ragclient_ask_rag (isLocal : Bool) (collection_count : Nat)
    (chain : String → String × List ChromaDoc) (query : String) : AskOutcome :=
  let doc_count := if isLocal then collection_count else 1
  if doc_count = 0 then
    { result := { query := query, answer := ragclient_no_docs_answer,
                  sources := [], context_used := false, num_sources := some 0 },
      generation_called := false }
  else
    let out := chain query
    let sources := out.2.map chroma_source_entry
    { result := { query := query, answer := out.1, sources := sources,
                  context_used := decide (sources.length > 0),
                  num_sources := some sources.length },
      generation_called := true }

/-- The literal bytes of the `ChromaRAGClient._setup_prompt_template` template
(lines 107-121) before the `{context}` placeholder; `RAGClient` uses the same
template. -/
def chroma_template_part1 : String :=
  "You are a helpful AI assistant that answers questions based on the provided context documents.\n\n            Instructions:\n            - Use only the information provided in the context documents to answer the question\n            - If the context doesn\x27t contain enough information to answer the question, say so clearly\n            - Cite your sources by referencing the document titles when possible\n            - Be concise but comprehensive in your responses\n            - If there are conflicting information in the documents, acknowledge this\n            \n            Context Documents:\n            "

/-- The template bytes between the `{context}` and `{question}` placeholders. -/
def chroma_template_part2 : String := "\n            \n            Question: "

/-- The template bytes after the `{question}` placeholder. -/
def chroma_template_part3 : String := "\n            \n            Answer:"

/-- The prompt produced by substituting `context` and `question` into the
`PromptTemplate` of `_setup_prompt_template`. -/
def chroma_prompt_template (context question : String) : String :=
  chroma_template_part1 ++ context ++ chroma_template_part2 ++ question ++ chroma_template_part3

/-! ## ChromaRAGClient database lifecycle -/

/-- A Chroma vectorstore handle: its configuration and the collection
contents it addresses. -/
structure ChromaStore where
  collection_name : String
  persist_directory : String
  docs : List Chunk
  deriving Repr, DecidableEq

/-- The client state touched by `clear_database` / `get_database_info`: the
configured persist directory and embedding model, the vectorstore handle, and
the store the retriever points at. -/
structure ChromaClientState where
  persist_directory : String
  embedding_model : String
  vectorstore : ChromaStore
  retriever_store : ChromaStore
  deriving Repr, DecidableEq

/-- `Chroma(collection_name="rag_documents", embedding_function=...,
persist_directory=d)` after the old collection was deleted: a fresh empty
collection under the same configuration. -/
def chroma_construct (persist_directory : String) : ChromaStore :=
  { collection_name := "rag_documents", persist_directory := persist_directory, docs := [] }

/-- `ChromaRAGClient.clear_database` (lines 207-224): delete the collection,
recreate an empty one with the same collection name and persist directory, and
point the retriever at it.  Deleting is safe on an already-empty collection,
so the embedding is total. -/
def clear_database (s : ChromaClientState) : ChromaClientState :=
  let fresh := chroma_construct s.persist_directory
  { s with vectorstore := fresh, retriever_store := fresh }

/-- The dictionary returned by `ChromaRAGClient.get_database_info`. -/
structure DatabaseInfo where
  total_documents : Nat
  collection_name : String
  persist_directory : String
  embedding_model : String
  deriving Repr, DecidableEq

/-- `ChromaRAGClient.get_database_info` (lines 228-237). -/
def get_database_info (s : ChromaClientState) : DatabaseInfo :=
  { total_documents := s.vectorstore.docs.length,
    collection_name := "rag_documents",
    persist_directory := s.persist_directory,
    embedding_model := s.embedding_model }

/-! ## Concrete fixtures (used by counterexamples and witnesses) -/

/-- A zero-byte input file: it exists, carries the `.pdf` suffix, but
`path.stat().st_size` is `0`, so the loader is never consulted. -/
def zero_byte_pdf : PdfPath :=
  { path := "data/empty.pdf", file_exists := true, is_pdf_suffix := true,
    size_bytes := 0, parsed_chunks := [] }

/-- An embedding service that answers every request with a 1-dimensional
vector. -/
def unit_embed : String → Option (List Int) := fun _ => some [1]

/-- An embedding service whose response carries no data. -/
def fail_embed : String → Option (List Int) := fun _ => none

/-- A vector store that returns no hits for any query. -/
def empty_store : List Int → String → Nat → List AzureRawDoc := fun _ _ _ => []

/-- A vector store holding one document, returned for every query. -/
def one_doc_store : List Int → String → Nat → List AzureRawDoc :=
  fun _ _ _ => [{ title := some "Doc", content := some "text", filepath := some "doc.pdf" }]

/-- A generation service that always produces a completion. -/
def some_gen : String → Option String := fun _ => some "generated answer"

/-- A generation service whose response carries no choices. -/
def no_choices_gen : String → Option String := fun _ => none

/-- A QA chain producing an answer with no source documents, as the stateless
chain does over an empty collection. -/
def fixed_chain : String → String × List ChromaDoc := fun _ => ("ungrounded model answer", [])

/-- A sample shaped search hit. -/
def sample_azure_doc : AzureDoc :=
  { id := "1", content := "Paris is the capital of France.", title := "Geo",
    url := "", filepath := "data/geo.pdf", meta_json_string := "",
    score := 1, source := "data/geo.pdf" }

/-- One hundred identical characters: a shared 100-character content head. -/
def c10_shared_head : String := String.mk (List.replicate 100 'a')

/-- A chunk content agreeing with `c10_content_b` on its first 100 characters
but differing at character 101. -/
def c10_content_a : String := c10_shared_head ++ "x"

/-- A chunk content agreeing with `c10_content_a` on its first 100 characters
but differing at character 101. -/
def c10_content_b : String := c10_shared_head ++ "y"

/-! ## Helper lemmas -/

/-- Validation is idempotent: it is a filter, so filtering twice filters
once. -/
theorem validate_pdf_files_idem (l : List PdfPath) :
    validate_pdf_files (validate_pdf_files l) = validate_pdf_files l := by
  simp [validate_pdf_files, List.filter_filter]

/-! ## Claims -/

/-- Claim C1 (counterexample): the claim asserts the empty-store
short-circuit for every client variant, Azure/non-local alike.  For
`RAGClient.ask_rag` with `local=False` the store count is hardcoded to `1`,
so with a store of zero documents the QA chain — the generation service — is
still invoked, and the answer is whatever the ungrounded chain returns, not
the fixed no-documents answer. -/
theorem c1_nonlocal_generation_invoked :
    (ragclient_ask_rag false 0 fixed_chain "any query").generation_called = true ∧
    (ragclient_ask_rag false 0 fixed_chain "any query").result.answer ≠
      ragclient_no_docs_answer := by
  refine ⟨rfl, ?_⟩
  decide

/-- Claim C1 (amended): with a store of zero documents, `ask_rag` returns
`context_used=false`, the fixed no-documents answer and empty sources without
invoking the generation service — for `ChromaRAGClient.ask_rag`, for
`RAGClient.ask_rag` with `local=True`, and for `AzureRAGClient.ask` of
`src/RAG/RagClient.py` (whose search then yields no documents); the non-local
`RAGClient` variant is excluded (see the counterexample). -/
theorem c1_empty_store_short_circuit (chain : String → String × List ChromaDoc)
    (q : String) (svc : String → Option (List Int))
    (store : List Int → String → Nat → List AzureRawDoc)
    (gen : String → Option String) (k : Nat)
    (hstore : ∀ v, store v q k = []) :
    ((chroma_ask_rag 0 chain q).result.context_used = false ∧
     (chroma_ask_rag 0 chain q).result.answer = chroma_no_docs_answer ∧
     (chroma_ask_rag 0 chain q).result.sources = [] ∧
     (chroma_ask_rag 0 chain q).generation_called = false) ∧
    ((ragclient_ask_rag true 0 chain q).result.context_used = false ∧
     (ragclient_ask_rag true 0 chain q).result.answer = ragclient_no_docs_answer ∧
     (ragclient_ask_rag true 0 chain q).result.sources = [] ∧
     (ragclient_ask_rag true 0 chain q).generation_called = false) ∧
    (azure_ask svc store gen k q =
      Except.ok { result := azure_no_info_result q, generation_called := false }) := by
  have hdocs : search_documents svc store k q = [] := by
    by_cases he : (generate_embeddings svc q).isEmpty
    · simp [search_documents, he]
    · simp [search_documents, he, hstore]
  refine ⟨⟨rfl, rfl, rfl, rfl⟩, ⟨rfl, rfl, rfl, rfl⟩, ?_⟩
  simp [azure_ask, hdocs]

/-- Claim C1 witness: the short-circuit at a concrete empty store. -/
theorem c1_empty_store_short_circuit_witness :
    ((chroma_ask_rag 0 fixed_chain "q").result.context_used = false ∧
     (chroma_ask_rag 0 fixed_chain "q").result.answer = chroma_no_docs_answer ∧
     (chroma_ask_rag 0 fixed_chain "q").result.sources = [] ∧
     (chroma_ask_rag 0 fixed_chain "q").generation_called = false) ∧
    ((ragclient_ask_rag true 0 fixed_chain "q").result.context_used = false ∧
     (ragclient_ask_rag true 0 fixed_chain "q").result.answer = ragclient_no_docs_answer ∧
     (ragclient_ask_rag true 0 fixed_chain "q").result.sources = [] ∧
     (ragclient_ask_rag true 0 fixed_chain "q").generation_called = false) ∧
    (azure_ask unit_embed empty_store some_gen 3 "q" =
      Except.ok { result := azure_no_info_result "q", generation_called := false }) :=
  c1_empty_store_short_circuit fixed_chain "q" unit_embed empty_store some_gen 3
    (fun _ => rfl)

/-- Claim C2 (counterexample): the empty-retrieval branch of
`AzureRAGClient.ask` returns normally, but the record it returns is built
without a `num_sources` key, so not every returned record contains the
field. -/
theorem c2_missing_num_sources :
    azure_ask unit_embed empty_store some_gen 3 "q" =
      Except.ok { result := azure_no_info_result "q", generation_called := false } ∧
    (azure_no_info_result "q").num_sources = none :=
  ⟨rfl, rfl⟩

/-- Claim C2 (amended): the LangChain clients (`ChromaRAGClient.ask_rag`,
`RAGClient.ask_rag`) always include `num_sources` and satisfy
`context_used == (num_sources > 0) == (len(sources) > 0)`; for
`AzureRAGClient.ask` the Boolean invariant `context_used == (len(sources) > 0)`
holds in every branch, but the empty-retrieval branch omits `num_sources`
(there `context_used` is false and `sources` empty), while the other branch
includes it as `len(sources)`. -/
theorem c2_result_invariant (chain : String → String × List ChromaDoc)
    (doc_count : Nat) (isLocal : Bool) (q : String)
    (svc : String → Option (List Int))
    (store : List Int → String → Nat → List AzureRawDoc)
    (gen : String → Option String) (k : Nat) :
    ((chroma_ask_rag doc_count chain q).result.num_sources =
       some (chroma_ask_rag doc_count chain q).result.sources.length ∧
     (chroma_ask_rag doc_count chain q).result.context_used =
       decide ((chroma_ask_rag doc_count chain q).result.sources.length > 0)) ∧
    ((ragclient_ask_rag isLocal doc_count chain q).result.num_sources =
       some (ragclient_ask_rag isLocal doc_count chain q).result.sources.length ∧
     (ragclient_ask_rag isLocal doc_count chain q).result.context_used =
       decide ((ragclient_ask_rag isLocal doc_count chain q).result.sources.length > 0)) ∧
    (∀ o : AskOutcome, azure_ask svc store gen k q = Except.ok o →
      o.result.context_used = decide (o.result.sources.length > 0) ∧
      (o.result.num_sources = none ∧ o.result.context_used = false ∧
         o.result.sources = [] ∨
       o.result.num_sources = some o.result.sources.length)) := by
  refine ⟨?_, ?_, ?_⟩
  · simp only [chroma_ask_rag]
    split
    · exact ⟨rfl, rfl⟩
    · exact ⟨rfl, rfl⟩
  · simp only [ragclient_ask_rag]
    generalize (if isLocal = true then doc_count else 1) = m
    split
    · exact ⟨rfl, rfl⟩
    · exact ⟨rfl, rfl⟩
  · intro o h
    rcases hdocs : search_documents svc store k q with _ | ⟨d, ds⟩
    · simp only [azure_ask, hdocs] at h
      simp at h
      subst h
      exact ⟨rfl, Or.inl ⟨rfl, rfl, rfl⟩⟩
    · cases hg : generate_response gen (create_rag_prompt q (d :: ds)) with
      | error e =>
        simp [azure_ask, hdocs, hg] at h
      | ok ans =>
        simp [azure_ask, hdocs, hg] at h
        subst h
        refine ⟨by simp, Or.inr (by simp)⟩

/-- Claim C2 witness: the invariant read off a concretely returned record
(the empty-retrieval record of the Azure client). -/
theorem c2_result_invariant_witness :
    (azure_no_info_result "qq").context_used =
      decide ((azure_no_info_result "qq").sources.length > 0) ∧
    ((azure_no_info_result "qq").num_sources = none ∧
       (azure_no_info_result "qq").context_used = false ∧
       (azure_no_info_result "qq").sources = [] ∨
     (azure_no_info_result "qq").num_sources =
       some (azure_no_info_result "qq").sources.length) :=
  (c2_result_invariant fixed_chain 2 true "qq" unit_embed empty_store some_gen 3).2.2
    { result := azure_no_info_result "qq", generation_called := false } rfl

/-- Claim C3 (counterexample): at a chat response with no choices, `ask` does
not return a well-formed result at all — `generate_response`'s error-logging
f-string accesses `response.status_code` / `response.error`, absent on the
SDK `ChatCompletion`, so an `AttributeError` is raised and propagates to the
caller, contradicting the claimed error-message answer with
`contextUsed=false` returned in place of an exception. -/
theorem c3_attribute_error_raised :
    azure_ask unit_embed one_doc_store no_choices_gen 3 "q" =
      Except.error PyAttributeError.statusCodeOnChatCompletion := rfl

/-- Claim C3 (amended): when the generation service returns a response with
no choices after a nonempty retrieval, `ask` returns no `RAGResult`:
`generate_response`'s failure branch raises an `AttributeError` (its log
f-string reads attributes the SDK response lacks) before its documented
`return ""` is reached, and `ask`, which catches nothing, propagates the
exception raw to the caller — no error-message answer and no
`contextUsed=false` record is produced. -/
theorem c3_generation_failure_raises (svc : String → Option (List Int))
    (store : List Int → String → Nat → List AzureRawDoc)
    (gen : String → Option String) (k : Nat) (q : String)
    (hdocs : search_documents svc store k q ≠ [])
    (hgen : ∀ p, gen p = none) :
    azure_ask svc store gen k q =
      Except.error PyAttributeError.statusCodeOnChatCompletion := by
  rcases hd : search_documents svc store k q with _ | ⟨d, ds⟩
  · exact absurd hd hdocs
  · simp [azure_ask, hd, generate_response, hgen]

/-- Claim C3 witness: the propagated `AttributeError` at a concrete nonempty
store and choiceless generation service. -/
theorem c3_generation_failure_witness :
    azure_ask unit_embed one_doc_store no_choices_gen 3 "q2" =
      Except.error PyAttributeError.statusCodeOnChatCompletion :=
  c3_generation_failure_raises unit_embed one_doc_store no_choices_gen 3 "q2"
    (by decide) (fun _ => rfl)

/-- Claim C4 (counterexample): on an embedding failure, `search_documents`
does not fail with a `RetrievalError` (no such class exists anywhere in the
repository) — it returns the empty list as an ordinary value, even against a
store that holds a document, and the orchestrator's `if not documents` check,
not an exception handler, yields the no-information result. -/
theorem c4_search_returns_value_not_error :
    generate_embeddings fail_embed "q" = [] ∧
    search_documents fail_embed one_doc_store 3 "q" = [] ∧
    azure_ask fail_embed one_doc_store some_gen 3 "q" =
      Except.ok { result := azure_no_info_result "q", generation_called := false } :=
  ⟨rfl, rfl, rfl⟩

/-- Claim C4 (amended): if embedding the query fails or returns an empty
vector, `search_documents` returns the empty list (no exception is raised or
caught), and `ask` then returns the no-information result —
`context_used=false`, empty sources, the fixed fallback answer — without
invoking the generation service and without surfacing any error. -/
theorem c4_embedding_failure_degrades (svc : String → Option (List Int))
    (store : List Int → String → Nat → List AzureRawDoc)
    (gen : String → Option String) (k : Nat) (q : String)
    (h : generate_embeddings svc q = []) :
    search_documents svc store k q = [] ∧
    azure_ask svc store gen k q =
      Except.ok { result := azure_no_info_result q, generation_called := false } := by
  have hs : search_documents svc store k q = [] := by simp [search_documents, h]
  exact ⟨hs, by simp [azure_ask, hs]⟩

/-- Claim C4 witness: the degradation at a concrete failing embedder. -/
theorem c4_embedding_failure_witness :
    search_documents fail_embed one_doc_store 3 "q3" = [] ∧
    azure_ask fail_embed one_doc_store some_gen 3 "q3" =
      Except.ok { result := azure_no_info_result "q3", generation_called := false } :=
  c4_embedding_failure_degrades fail_embed one_doc_store some_gen 3 "q3" rfl

/-- Claim C5: every `IndexingResult` the pipeline returns satisfies
`chunks_indexed <= chunks_created`, and `chunks_indexed = 0` whenever
`success = false`. -/
theorem c5_indexing_result_invariant (pyHash : String → Int)
    (addDocs : List Chunk → List String) (pdf_paths : List PdfPath) :
    (index_pdf_files pyHash addDocs pdf_paths).chunks_indexed ≤
      (index_pdf_files pyHash addDocs pdf_paths).chunks_created ∧
    ((index_pdf_files pyHash addDocs pdf_paths).success = false →
      (index_pdf_files pyHash addDocs pdf_paths).chunks_indexed = 0) := by
  simp only [index_pdf_files]
  split
  · exact ⟨Nat.le_refl 0, fun _ => rfl⟩
  · split
    · exact ⟨Nat.le_refl 0, fun _ => rfl⟩
    · refine ⟨?_, ?_⟩
      · split
        · exact Nat.le_refl _
        · exact Nat.zero_le _
      · intro hf
        simp only at hf
        simp [hf]

/-- Claim C5 witness: the invariant at a concrete failing batch. -/
theorem c5_indexing_result_invariant_witness :
    (index_pdf_files (fun _ => 0) (fun _ => []) [zero_byte_pdf]).chunks_indexed ≤
      (index_pdf_files (fun _ => 0) (fun _ => []) [zero_byte_pdf]).chunks_created ∧
    (index_pdf_files (fun _ => 0) (fun _ => []) [zero_byte_pdf]).chunks_indexed = 0 :=
  ⟨(c5_indexing_result_invariant (fun _ => 0) (fun _ => []) [zero_byte_pdf]).1,
   (c5_indexing_result_invariant (fun _ => 0) (fun _ => []) [zero_byte_pdf]).2 rfl⟩

/-- Claim C6: the entry point validates every path (exists, `.pdf` suffix,
nonzero size) before processing — invalid files are skipped, never fatal, so
the outcome is exactly the outcome on the valid subset — and a batch
consisting only of a zero-size file yields `success=false` and
`files_processed=0`. -/
theorem c6_validation_skips_invalid (pyHash : String → Int)
    (addDocs : List Chunk → List String) (pdf_paths : List PdfPath)
    (f : PdfPath) (hsize : f.size_bytes = 0) :
    index_pdf_files pyHash addDocs (validate_pdf_files pdf_paths) =
      index_pdf_files pyHash addDocs pdf_paths ∧
    (index_pdf_files pyHash addDocs [f]).success = false ∧
    (index_pdf_files pyHash addDocs [f]).files_processed = 0 := by
  have hv : validate_pdf_files [f] = [] := by
    simp [validate_pdf_files, List.filter, hsize]
  refine ⟨?_, ?_, ?_⟩
  · simp only [index_pdf_files, validate_pdf_files_idem]
  · simp [index_pdf_files, hv]
  · simp [index_pdf_files, hv]

/-- Claim C6 witness: the zero-byte batch at the concrete fixture. -/
theorem c6_validation_skips_invalid_witness :
    index_pdf_files (fun _ => 0) (fun _ => []) (validate_pdf_files [zero_byte_pdf]) =
      index_pdf_files (fun _ => 0) (fun _ => []) [zero_byte_pdf] ∧
    (index_pdf_files (fun _ => 0) (fun _ => []) [zero_byte_pdf]).success = false ∧
    (index_pdf_files (fun _ => 0) (fun _ => []) [zero_byte_pdf]).files_processed = 0 :=
  c6_validation_skips_invalid (fun _ => 0) (fun _ => []) [zero_byte_pdf] zero_byte_pdf rfl

/-- Claim C7: `clear_database` is idempotent — the second call on the
already-cleared client is a no-op that succeeds — and after each call
`get_database_info` reports zero documents with the collection reconstructed
under the same collection name and persist directory. -/
theorem c7_clear_database_idempotent (s : ChromaClientState) :
    clear_database (clear_database s) = clear_database s ∧
    (get_database_info (clear_database s)).total_documents = 0 ∧
    (get_database_info (clear_database (clear_database s))).total_documents = 0 ∧
    (get_database_info (clear_database s)).collection_name = "rag_documents" ∧
    (get_database_info (clear_database s)).persist_directory = s.persist_directory :=
  ⟨rfl, rfl, rfl, rfl, rfl⟩

/-- Claim C8: prompt assembly is deterministic — identical query and chunks
(and identical context/question for the Chroma template) produce byte-equal
prompt strings; both builders are pure functions of their inputs. -/
theorem c8_prompt_determinism (q1 q2 : String) (docs1 docs2 : List AzureDoc)
    (ctx1 ctx2 quest1 quest2 : String)
    (hq : q1 = q2) (hd : docs1 = docs2) (hc : ctx1 = ctx2) (hquest : quest1 = quest2) :
    create_rag_prompt q1 docs1 = create_rag_prompt q2 docs2 ∧
    chroma_prompt_template ctx1 quest1 = chroma_prompt_template ctx2 quest2 := by
  subst hq
  subst hd
  subst hc
  subst hquest
  exact ⟨rfl, rfl⟩

/-- Claim C8 witness: determinism at a concrete query and chunk list. -/
theorem c8_prompt_determinism_witness :
    create_rag_prompt "What is the capital of France?" [sample_azure_doc] =
      create_rag_prompt "What is the capital of France?" [sample_azure_doc] ∧
    chroma_prompt_template "ctx" "q" = chroma_prompt_template "ctx" "q" :=
  c8_prompt_determinism "What is the capital of France?" "What is the capital of France?"
    [sample_azure_doc] [sample_azure_doc] "ctx" "ctx" "q" "q" rfl rfl rfl rfl

/-- Claim C9 (counterexample): constructing the processor with negative sizes
succeeds, and so does an overlap equal to the chunk size — at both inputs the
claim demands a `ConfigurationError`, but no error occurs at all (and no
`ConfigurationError` class exists anywhere in the repository). -/
theorem c9_invalid_params_accepted :
    documentProcessor_init (-5) (-10) =
      Except.ok { chunk_size := -5, chunk_overlap := -10 } ∧
    documentProcessor_init 100 100 =
      Except.ok { chunk_size := 100, chunk_overlap := 100 } :=
  ⟨rfl, rfl⟩

/-- Claim C9 (amended): construction fails — with the external text
splitter's `ValueError`, never a `ConfigurationError` — exactly when the
overlap exceeds the chunk size; for every other pair of values, non-positive
sizes and overlap equal to the chunk size included, construction succeeds and
the parameters are stored unchanged.  The repository's own constructor code
validates nothing. -/
theorem c9_overlap_check (chunk_size chunk_overlap : Int) :
    (chunk_size < chunk_overlap →
      documentProcessor_init chunk_size chunk_overlap =
        Except.error SplitterValueError.largerOverlapThanChunkSize) ∧
    (chunk_overlap ≤ chunk_size →
      documentProcessor_init chunk_size chunk_overlap =
        Except.ok { chunk_size := chunk_size, chunk_overlap := chunk_overlap }) := by
  constructor
  · intro h
    simp [documentProcessor_init, h]
  · intro h
    simp [documentProcessor_init, not_lt.mpr h]

/-- Claim C9 witness: both branches at concrete sizes — the defaults
(1000, 200) succeed, while (100, 200) fails with the splitter's
`ValueError`. -/
theorem c9_overlap_check_witness :
    documentProcessor_init 1000 200 =
      Except.ok { chunk_size := 1000, chunk_overlap := 200 } ∧
    documentProcessor_init 100 200 =
      Except.error SplitterValueError.largerOverlapThanChunkSize :=
  ⟨(c9_overlap_check 1000 200).2 (by decide), (c9_overlap_check 100 200).1 (by decide)⟩

set_option maxRecDepth 100000 in
/-- Claim C10 (counterexample): two distinct chunk contents sharing the same
chunk index and the same first 100 characters receive the *same* id — the id
is `doc_{index}_{hash(content[:100])}`, which cannot separate them — refuting
the claimed distinctness. -/
theorem c10_same_head_same_id :
    c10_content_a ≠ c10_content_b ∧
    chunk_id (fun s => (s.length : Int)) 0 c10_content_a =
      chunk_id (fun s => (s.length : Int)) 0 c10_content_b := by
  refine ⟨?_, rfl⟩
  decide

/-- Claim C10 (amended): within one interpreter run (one fixed string hash),
chunk ids are determined by the chunk index and the first 100 characters of
content alone; hence two chunks agreeing on both collide on the same id
rather than receiving distinct ids (and stability across runs is not given,
the hash being process-salted). -/
theorem c10_id_collision (pyHash : String → Int) (i : Nat) (ca cb : String)
    (h : ca.take 100 = cb.take 100) :
    chunk_id pyHash i ca = chunk_id pyHash i cb := by
  unfold chunk_id
  rw [h]

set_option maxRecDepth 100000 in
/-- Claim C10 witness: the collision at the concrete contents. -/
theorem c10_id_collision_witness :
    chunk_id (fun s => (s.length : Int)) 3 c10_content_a =
      chunk_id (fun s => (s.length : Int)) 3 c10_content_b :=
  c10_id_collision (fun s => (s.length : Int)) 3 c10_content_a c10_content_b (by decide)

end AIUpskill
